import Mathlib

/-!
Verification of the buildDataset data-collection pipeline
(`app/build_dataset/{graph,processors,storage,schemas}.py`).

The pipeline state machine, its per-stage node functions, the ranking
heuristic and the storage routine are embedded shallowly.  External
collaborators (SerpAPI search, PDF download, webpage extraction,
MarkItDown conversion, GCS upload) are modelled as oracle parameters:
each call site receives the collaborator's outcome (a returned value or
a raised exception) as input.  The local file system touched by the
scratch directories is modelled explicitly as a list of directories and
(directory, file-name) pairs so that creation and deletion of the
scratch space is observable.  Python floats are modelled as real
numbers; `math.log10` becomes `Real.logb 10`.
-/

/-- Outcome of a call to an external collaborator: either a returned
value or a raised exception carrying a message. -/
inductive CallOutcome (α : Type) where
  | returns (val : α)
  | raises (msg : String)
deriving Repr

/-! ### Character-list string helpers

The Python code manipulates strings with `.lower()`, `in`,
`.endswith()`, `.replace()`, `re.search`, `str.isdigit` and `re.sub`.
These are reimplemented over `List Char` so that every definition is
kernel-executable. -/

/-- `s.lower()` (ASCII, which is all the code relies on). -/
def lowerStr (s : String) : String := String.mk (s.data.map Char.toLower)

/-- Python `needle in hay` on character lists. -/
def charsContain (hay needle : List Char) : Bool :=
  match hay with
  | [] => needle.isEmpty
  | _ :: t => needle.isPrefixOf hay || charsContain t needle

/-- Python `needle in hay` for strings (no implicit lowering). -/
def strContains (hay needle : String) : Bool := charsContain hay.data needle.data

/-- Python `hay.endswith(suffixStr)`. -/
def strEndsWith (hay suffixStr : String) : Bool :=
  List.isSuffixOf suffixStr.data hay.data

/-- Python `s.replace(old, new)` for single-character old/new, as used by
`topic.replace(' ', '_')`. -/
def replaceChar (s : String) (old new : Char) : String :=
  String.mk (s.data.map (fun c => if c = old then new else c))

/-- A regex word character (`\w`), used for `\b` boundaries. -/
def isWordChar (c : Char) : Bool := c.isAlphanum || c = '_'

/-- Numeric value of four digit characters. -/
def fourDigitVal (a b c d : Char) : ℕ :=
  (a.toNat - 48) * 1000 + (b.toNat - 48) * 100 + (c.toNat - 48) * 10 + (d.toNat - 48)

/-- Does `re.search(r'\b(\d{4})\b', s)` match at the current position?
`prev` is the character preceding the position (none at the start). -/
def fourDigitAt (prev : Option Char) (l : List Char) : Option ℕ :=
  match l with
  | a :: b :: c :: d :: rest =>
    if a.isDigit && b.isDigit && c.isDigit && d.isDigit
        && (match prev with | none => true | some p => !isWordChar p)
        && (match rest with | [] => true | e :: _ => !isWordChar e)
    then some (fourDigitVal a b c d)
    else none
  | _ => none

/-- Leftmost match of `re.search(r'\b(\d{4})\b', ·)`. -/
def findYear (prev : Option Char) (l : List Char) : Option ℕ :=
  match fourDigitAt prev l with
  | some y => some y
  | none =>
    match l with
    | [] => none
    | c :: t => findYear (some c) t

/-- `re.search(r'\b(\d{4})\b', date_str)` from
`calculate_weighted_quality_score`. -/
def extractYear (s : String) : Option ℕ := findYear none s.data

/-- `re.sub(r'[^a-zA-Z0-9_\-.]', '_', url)` from `store_processed_content`. -/
def sanitizeUrl (s : String) : String :=
  String.mk (s.data.map (fun c =>
    if c.isAlphanum || c = '_' || c = '-' || c = '.' then c else '_'))

/-- Model of Python's (process-seeded) `hash(str)`: any fixed function of
the string; the pipeline only uses it to build unique-ish file names. -/
def pyHash (s : String) : ℕ := s.data.foldl (fun a c => a * 31 + c.toNat) 7

/-! ### Data model (`schemas.py`) -/

/-- Value found at `res.get('cited_by', {}).get('value')` in a raw
SerpAPI hit: absent (or the enclosing dict malformed), an int, a string,
or something else. -/
inductive CitedBy where
  | absent
  | intVal (n : ℤ)
  | strVal (s : String)
  | otherVal
deriving Repr, DecidableEq

/-- One raw SerpAPI result dictionary, restricted to the keys
`node_fetch_initial_results` reads. -/
structure RawHit where
  link : Option String
  title : Option String
  snippet : Option String
  source : Option String
  publication_date : Option String
  cited_by : CitedBy
deriving Repr, DecidableEq

/-- `InitialSearchResult` (pydantic).  `original_metadata` is a dict
holding only `research_topic`, modelled by that single field. -/
structure InitialSearchResult where
  title : Option String
  link : String
  snippet : Option String
  source_name : Option String
  publication_date_str : Option String
  citation_count : Option ℤ
  raw_serpapi_data : Option RawHit
  research_topic : Option String
  quality_score : Option ℝ

/-- `FullContentData` (pydantic). -/
structure FullContentData where
  source_url : String
  original_metadata : InitialSearchResult
  file_path : Option String
  raw_content : Option String
  content_type : String
  download_successful : Bool
  error_message : Option String

/-- `ProcessedContent` (pydantic). -/
structure ProcessedContent where
  source_url : String
  original_metadata : InitialSearchResult
  title : Option String
  authors : Option (List String)
  publication_date : Option String
  abstract : Option String
  keywords : Option (List String)
  full_text_markdown : String
  gcs_storage_link : Option String

/-- `GraphState` (`graph.py`). -/
structure GraphState where
  research_topics : List String
  current_topic_index : ℤ
  current_topic : Option String
  initial_search_results : Option (List InitialSearchResult)
  ranked_initial_results : Option (List InitialSearchResult)
  top_n_selected_for_full_fetch : Option (List InitialSearchResult)
  fetched_full_content : Option (List FullContentData)
  processed_structured_data : Option (List ProcessedContent)
  all_processed_data : List ProcessedContent
  all_gcs_links : List String
  aggregated_errors : List String

/-! ### File-system model

Tracks which directories exist and which (directory, file) pairs exist,
enough to observe the life cycle of the two scratch directories. -/

structure FS where
  dirs : List String
  files : List (String × String)
deriving Repr, DecidableEq

/-- `Path(d).mkdir(parents=True, exist_ok=True)`. -/
def FS.mkdirP (fs : FS) (d : String) : FS :=
  if d ∈ fs.dirs then fs else { fs with dirs := d :: fs.dirs }

/-- `open(d / f, "w")` (creates or truncates the file). -/
def FS.writeFile (fs : FS) (d f : String) : FS :=
  if (d, f) ∈ fs.files then fs else { fs with files := (d, f) :: fs.files }

/-- `(d / f).unlink()`. -/
def FS.unlink (fs : FS) (d f : String) : FS :=
  { fs with files := fs.files.filter (fun p => !(p = (d, f))) }

/-- `Path(d).iterdir()`, as file names. -/
def FS.lsDir (fs : FS) (d : String) : List String :=
  (fs.files.filter (fun p => p.1 = d)).map Prod.snd

/-- `Path(d).rmdir()`: succeeds only on an empty directory, otherwise
the `OSError` is caught and the directory stays. -/
def FS.rmdir (fs : FS) (d : String) : FS :=
  if fs.lsDir d = [] then { fs with dirs := fs.dirs.filter (fun x => !(x = d)) } else fs

/-! ### `node_fetch_initial_results` (graph.py) -/

/-- Citation-count extraction from a raw hit (`node_fetch_initial_results`
lines 108-117): int value kept, digit-string parsed, everything else
(absent, non-digit string, unexpected type, `None`) becomes unknown. -/
def parseCitationCount : CitedBy → Option ℤ
  | CitedBy.absent => none
  | CitedBy.intVal n => some n
  | CitedBy.strVal s =>
    if s.isEmpty then none
    else if s.data.all Char.isDigit then (digitsToNat s.data 0 : ℤ) else none
  | CitedBy.otherVal => none
where
  /-- `int(count_value)` on an all-digit string. -/
  digitsToNat : List Char → ℕ → ℕ
    | [], acc => acc
    | c :: t, acc => digitsToNat t (acc * 10 + (c.toNat - 48))

/-- `InitialSearchResult(...)` as constructed by
`node_fetch_initial_results` for one raw hit with a (truthy) link. -/
def buildCandidate (topic : String) (l : String) (res : RawHit) : InitialSearchResult :=
  { link := l
    title := res.title
    citation_count := parseCitationCount res.cited_by
    snippet := res.snippet
    source_name := res.source
    publication_date_str := res.publication_date
    raw_serpapi_data := some res
    research_topic := some topic
    quality_score := none }

/-- `node_fetch_initial_results`.  `searchRes` is the outcome of the
SerpAPI call; `validLink` is pydantic's `HttpUrl` validation (a
validation failure raises, which the per-item `except` turns into an
aggregated error). -/
def node_fetch_initial_results (searchRes : CallOutcome (List RawHit))
    (validLink : String → Bool) (state : GraphState) : GraphState :=
  match state.current_topic with
  | none =>
    { state with
      initial_search_results := some []
      aggregated_errors := state.aggregated_errors ++
        ["Current topic is missing from state in fetch_initial_results."] }
  | some topic =>
    if topic.isEmpty then
      { state with
        initial_search_results := some []
        aggregated_errors := state.aggregated_errors ++
          ["Current topic is missing from state in fetch_initial_results."] }
    else
      let apiStep : List RawHit × List String :=
        match searchRes with
        | CallOutcome.returns hits => (hits, [])
        | CallOutcome.raises m =>
          ([], ["Error during SerpAPI call for topic '" ++ topic ++ "': " ++ m])
      let step := fun (acc : List InitialSearchResult × List String) (res : RawHit) =>
        match res.link with
        | none => acc
        | some l =>
          if l.isEmpty then acc
          else if validLink l then (acc.1 ++ [buildCandidate topic l res], acc.2)
          else (acc.1,
            acc.2 ++ ["Failed to parse/validate SerpAPI result item for topic '" ++ topic ++ "'."])
      let parsed := apiStep.1.foldl step ([], [])
      { state with
        initial_search_results := some parsed.1
        aggregated_errors := state.aggregated_errors ++ apiStep.2 ++ parsed.2 }

/-! ### `node_prepare_next_topic` (graph.py) -/

/-- `node_prepare_next_topic`: advance the index, set the topic, clear
the per-topic transient fields; past the last topic, change nothing. -/
def node_prepare_next_topic (state : GraphState) : GraphState :=
  let next_index : ℤ := state.current_topic_index + 1
  if next_index < (state.research_topics.length : ℤ) then
    { state with
      current_topic_index := next_index
      current_topic := state.research_topics.get? next_index.toNat
      initial_search_results := none
      ranked_initial_results := none
      top_n_selected_for_full_fetch := none
      fetched_full_content := none
      processed_structured_data := none }
  else state

/-! ### `node_fetch_full_content` (graph.py) -/

/-- Scratch directory created by the fetch node. -/
def tempPdfDir : String := "./temp_pdfs"

/-- The body of the per-candidate loop of `node_fetch_full_content`.
`call` is the outcome of the single collaborator call the branch makes:
for a `.pdf` URL a download returning an (existing-file) path or `None`;
otherwise a webpage extraction returning text or `None`. -/
def fetchOne (call : CallOutcome (Option String)) (r : InitialSearchResult) :
    FullContentData :=
  let url := r.link
  if strEndsWith (lowerStr url) ".pdf" then
    match call with
    | CallOutcome.returns (some p) =>
      { source_url := r.link, original_metadata := r, file_path := some p
        raw_content := none, content_type := "pdf"
        download_successful := true, error_message := none }
    | CallOutcome.returns none =>
      { source_url := r.link, original_metadata := r, file_path := none
        raw_content := none, content_type := "pdf"
        download_successful := false
        error_message := some ("Failed to download PDF from " ++ url) }
    | CallOutcome.raises m =>
      { source_url := r.link, original_metadata := r, file_path := none
        raw_content := none, content_type := "pdf"
        download_successful := false
        error_message := some ("Unexpected error fetching content for " ++ url ++ ": " ++ m) }
  else
    match call with
    | CallOutcome.returns (some s) =>
      if s.isEmpty then
        { source_url := r.link, original_metadata := r, file_path := none
          raw_content := none, content_type := "html"
          download_successful := false
          error_message := some ("Failed to fetch webpage content from " ++ url ++ ".") }
      else
        { source_url := r.link, original_metadata := r, file_path := none
          raw_content := some s, content_type := "html"
          download_successful := true, error_message := none }
    | CallOutcome.returns none =>
      { source_url := r.link, original_metadata := r, file_path := none
        raw_content := none, content_type := "html"
        download_successful := false
        error_message := some ("Failed to fetch webpage content from " ++ url ++ ".") }
    | CallOutcome.raises m =>
      { source_url := r.link, original_metadata := r, file_path := none
        raw_content := none, content_type := "html"
        download_successful := false
        error_message := some ("Unexpected error fetching content for " ++ url ++ ": " ++ m) }

/-- File written into the scratch directory by a successful PDF
download (`download_pdf_async` writes the file before returning the
path). -/
def fetchWrite (call : CallOutcome (Option String)) (r : InitialSearchResult) :
    Option String :=
  if strEndsWith (lowerStr r.link) ".pdf" then
    match call with
    | CallOutcome.returns (some p) => some p
    | _ => none
  else none

/-- `node_fetch_full_content`.  `oracle i` is the outcome of the
collaborator call made for the i-th selected candidate. -/
def node_fetch_full_content (oracle : ℕ → CallOutcome (Option String))
    (fs : FS) (state : GraphState) : GraphState × FS :=
  match state.top_n_selected_for_full_fetch with
  | none => ({ state with fetched_full_content := some [] }, fs)
  | some [] => ({ state with fetched_full_content := some [] }, fs)
  | some sel =>
    let fs1 := fs.mkdirP tempPdfDir
    let fetched := sel.enum.map (fun p => fetchOne (oracle p.1) p.2)
    let errs := sel.enum.filterMap (fun p => (fetchOne (oracle p.1) p.2).error_message)
    let fs2 := sel.enum.foldl (fun f p =>
      match fetchWrite (oracle p.1) p.2 with
      | some name => f.writeFile tempPdfDir name
      | none => f) fs1
    ({ state with
        fetched_full_content := some fetched
        aggregated_errors := state.aggregated_errors ++ errs }, fs2)

/-! ### `convert_content_to_markdown` (processors.py) -/

/-- What the code hands to `Markitdown().convert`: a file path or a raw
HTML string. -/
inductive ConvertInput where
  | fileInput (p : String)
  | rawInput (s : String)
deriving Repr, DecidableEq

/-- Tail of `convert_content_to_markdown` once a payload was dispatched:
a raised exception or a falsy result yield `None`; otherwise the
`ProcessedContent` is built from the converter text and the original
metadata. -/
def convertDispatch (res : CallOutcome (Option String)) (f : FullContentData) :
    Option ProcessedContent :=
  match res with
  | CallOutcome.raises _ => none
  | CallOutcome.returns none => none
  | CallOutcome.returns (some md) =>
    some { source_url := f.source_url
           original_metadata := f.original_metadata
           title := f.original_metadata.title
           authors := none
           publication_date := f.original_metadata.publication_date_str
           abstract := f.original_metadata.snippet
           keywords := none
           full_text_markdown := md
           gcs_storage_link := none }

/-- Truthiness of `full_content_data.raw_content` (a string: `None` and
`""` are falsy). -/
def rawContentTruthy (f : FullContentData) : Bool :=
  match f.raw_content with
  | some s => !s.isEmpty
  | none => false

/-- `convert_content_to_markdown`.  `conv` is the MarkItDown collaborator
(`returns none` models a falsy conversion result). -/
def convert_content_to_markdown (conv : ConvertInput → CallOutcome (Option String))
    (f : FullContentData) : Option ProcessedContent :=
  if f.file_path.isSome && f.content_type = "pdf" then
    convertDispatch (conv (ConvertInput.fileInput (f.file_path.getD ""))) f
  else if rawContentTruthy f && f.content_type = "html" then
    convertDispatch (conv (ConvertInput.rawInput (f.raw_content.getD ""))) f
  else none

/-! ### `node_process_full_content` (graph.py) -/

/-- Guard of the per-item branch in `node_process_full_content`:
`item.download_successful and (item.file_path or item.raw_content)`. -/
def processGuard (item : FullContentData) : Bool :=
  item.download_successful && (item.file_path.isSome || rawContentTruthy item)

/-- Error entry appended when conversion returns `None`. -/
def processFailMsg (topic : String) (item : FullContentData) : String :=
  "Processing failed for URL: " ++ item.source_url ++ " (Topic: '" ++ topic ++
    "', convert_content_to_markdown returned None)"

/-- `node_process_full_content`: convert each guard-passing fetched item,
collect successes for the topic, extend the `all_processed_data`
accumulator, append an error per failed conversion. -/
def node_process_full_content (conv : ConvertInput → CallOutcome (Option String))
    (state : GraphState) : GraphState :=
  let topic := match state.current_topic with | some t => t | none => "None"
  match state.fetched_full_content with
  | none => { state with processed_structured_data := some [] }
  | some [] => { state with processed_structured_data := some [] }
  | some fl =>
    let kept := fl.filter processGuard
    let processed := kept.filterMap (fun item => convert_content_to_markdown conv item)
    let errs := kept.filterMap (fun item =>
      match convert_content_to_markdown conv item with
      | none => some (processFailMsg topic item)
      | some _ => none)
    { state with
      processed_structured_data := some processed
      all_processed_data := state.all_processed_data ++ processed
      aggregated_errors := state.aggregated_errors ++ errs }

/-! ### `store_processed_content` (storage.py) and `node_store_results` -/

/-- Scratch directory created by the storage routine. -/
def tempGcsDir : String := "./temp_gcs_uploads"

/-- Temporary local file name for one item: `f"{hash(item.source_url)}.md"`. -/
def tmpFileName (item : ProcessedContent) : String :=
  toString (pyHash item.source_url) ++ ".md"

/-- Per-item result of the upload loop: on a successful upload the
`gcs_storage_link` is set, otherwise the item is kept unchanged. -/
def storeItem (u : Option String) (item : ProcessedContent) : ProcessedContent :=
  match u with
  | some url => { item with gcs_storage_link := some url }
  | none => item

/-- Cleanup in the `finally` block: unlink every file `iterdir` lists in
the scratch directory, then `rmdir` it. -/
def cleanupDir (fs : FS) (d : String) : FS :=
  ((fs.lsDir d).foldl (fun f n => f.unlink d n) fs).rmdir d

/-- One iteration of the upload loop in `store_processed_content`: write
the item's temp file, upload it (outcome `upload i`), keep the item —
with its link set on success — and advance the index. -/
def storeStep (upload : ℕ → Option String)
    (acc : List ProcessedContent × FS × ℕ) (item : ProcessedContent) :
    List ProcessedContent × FS × ℕ :=
  let fsw := acc.2.1.writeFile tempGcsDir (tmpFileName item)
  (acc.1 ++ [storeItem (upload acc.2.2) item], fsw, acc.2.2 + 1)

/-- `store_processed_content`.  `upload i` is the outcome of the GCS
upload of the i-th item (`none` covers both an upload returning `None`
and an exception while preparing/uploading).  Returns the updated items
and the file system after the `finally` cleanup. -/
def store_processed_content (upload : ℕ → Option String)
    (processed_data : List ProcessedContent) (base_path : String) (fs : FS) :
    List ProcessedContent × FS :=
  match processed_data with
  | [] => ([], fs)
  | _ :: _ =>
    let fs1 := fs.mkdirP tempGcsDir
    let looped := processed_data.foldl (storeStep upload) ([], fs1, 0)
    (looped.1, cleanupDir looped.2.1 tempGcsDir)

/-- Base storage path derived from the topic in `node_store_results`:
`f"research_dataset/{topic.replace(' ', '_').lower()}"`. -/
def topicBasePath (topic : String) : String :=
  "research_dataset/" ++ lowerStr (replaceChar topic ' ' '_')

/-- Per-topic summary error appended when some uploads failed. -/
def storeFailMsg (failed : ℕ) (topic : String) : String :=
  "Failed to store " ++ toString failed ++ " items to GCS for topic '" ++ topic ++
    "' (check previous logs)."

/-- `node_store_results`: store the topic's processed documents, extend
`all_gcs_links` with the successful links, and append one summary error
if any upload failed.  A missing topic makes the f-string base path
raise, landing in the outer `except` which appends one error. -/
def node_store_results (upload : ℕ → Option String) (fs : FS) (state : GraphState) :
    GraphState × FS :=
  match state.processed_structured_data with
  | none => (state, fs)
  | some [] => (state, fs)
  | some pd =>
    match state.current_topic with
    | none =>
      ({ state with
          aggregated_errors := state.aggregated_errors ++
            ["Unexpected error during storage process for topic 'None': missing topic"] }, fs)
    | some topic =>
      let stored := store_processed_content upload pd (topicBasePath topic) fs
      let links := stored.1.filterMap (fun item => item.gcs_storage_link)
      let failed := pd.length - links.length
      ({ state with
          all_gcs_links := state.all_gcs_links ++ links
          aggregated_errors := state.aggregated_errors ++
            (if 0 < failed then [storeFailMsg failed topic] else []) }, stored.2)

/-! ### `calculate_weighted_quality_score` (processors.py)

Python floats are modelled as real numbers; `math.log10 x` is
`Real.logb 10 x`.  `datetime.now().year` is passed in as `current_year`. -/

/-- One `relevance_score += 0.5` statement: half a point when the topic
occurs (case-insensitively) in the optional field. -/
noncomputable def halfIfContains (topic : String) (field : Option String) : ℝ :=
  match field with
  | some t => if strContains (lowerStr t) topic then 0.5 else 0
  | none => 0

/-- Relevance component: +0.5 for the topic occurring (case-insensitively)
in the title, +0.5 for the snippet, capped at 1.0; 0 when the research
topic is missing or empty. -/
noncomputable def relevanceScore (research_topic title snippet : Option String) : ℝ :=
  let topic := lowerStr (research_topic.getD "")
  if topic.isEmpty then 0
  else min (halfIfContains topic title + halfIfContains topic snippet) 1.0

/-- Recency component: extract a year, clamp the age at 0 and decay by a
decade; 0.1 when a date string exists but no year parses; 0 when no date
string (or an empty one) is present. -/
noncomputable def recencyScore (current_year : ℕ) (publication_date_str : Option String) : ℝ :=
  match publication_date_str with
  | none => 0
  | some s =>
    if s.isEmpty then 0
    else
      match extractYear s with
      | some year =>
        let age : ℤ := max 0 ((current_year : ℤ) - (year : ℤ))
        max 0 (1.0 - (age : ℝ) / 10.0)
      | none => 0.1

/-- Source-authority component: arxiv/acm/ieee 1.0, researchgate or
academia.edu 0.7, any other non-empty source 0.3, absent source 0. -/
noncomputable def authorityScore (source_name : Option String) : ℝ :=
  match source_name with
  | none => 0
  | some s =>
    if s.isEmpty then 0
    else
      let l := lowerStr s
      if strContains l "arxiv" || strContains l "acm" || strContains l "ieee" then 1.0
      else if strContains l "researchgate" || strContains l "academia.edu" then 0.7
      else 0.3

/-- Citation component: positive counts scale logarithmically capped at
1.0, a confirmed zero scores 0, an unknown (or negative, per the
`if/elif/else` chain) count scores 0.1. -/
noncomputable def citationScore (citation_count : Option ℤ) : ℝ :=
  match citation_count with
  | some c =>
    if 0 < c then min 1.0 (Real.logb 10 ((c : ℝ) + 1) / Real.logb 10 1001)
    else if c = 0 then 0
    else 0.1
  | none => 0.1

/-- `calculate_weighted_quality_score`: the weighted combination of the
four components. -/
noncomputable def calculate_weighted_quality_score (current_year : ℕ)
    (result : InitialSearchResult) : ℝ :=
  relevanceScore result.research_topic result.title result.snippet * 0.4
    + recencyScore current_year result.publication_date_str * 0.2
    + authorityScore result.source_name * 0.1
    + citationScore result.citation_count * 0.3

/-! ### `rank_initial_results` (processors.py)

Python's `sorted(..., key=..., reverse=True)` is a stable descending
sort: an element is placed before exactly those later elements whose key
is strictly smaller.  It is modelled by a stable insertion sort in which
an element being inserted passes over exactly the earlier-placed
elements with strictly larger keys. -/

/-- Sort key used by `rank_initial_results`:
`x.quality_score if x.quality_score is not None else -1`. -/
noncomputable def keyQ (r : InitialSearchResult) : ℝ := r.quality_score.getD (-1)

/-- Stable descending insertion: `x` goes in front of the first element
whose key is not larger than `key x`. -/
noncomputable def insertByKeyDesc {α : Type} (key : α → ℝ) (x : α) : List α → List α
  | [] => [x]
  | y :: ys => if key y ≤ key x then x :: y :: ys else y :: insertByKeyDesc key x ys

/-- Stable descending sort by `key` (model of
`sorted(..., key=key, reverse=True)`). -/
noncomputable def sortByKeyDesc {α : Type} (key : α → ℝ) : List α → List α
  | [] => []
  | x :: xs => insertByKeyDesc key x (sortByKeyDesc key xs)

/-- The scoring pass of `rank_initial_results`: every result gets its
`quality_score` populated. -/
noncomputable def scoredList (current_year : ℕ) (results : List InitialSearchResult) :
    List InitialSearchResult :=
  results.map (fun r =>
    { r with quality_score := some (calculate_weighted_quality_score current_year r) })

/-- `rank_initial_results`: empty input short-circuits; otherwise score,
stable-sort descending, take the top `top_n`. -/
noncomputable def rank_initial_results (current_year : ℕ)
    (results : List InitialSearchResult) (top_n : ℕ) : List InitialSearchResult :=
  match results with
  | [] => []
  | _ :: _ => (sortByKeyDesc keyQ (scoredList current_year results)).take top_n

/-- `node_rank_initial_results` (graph.py); `top_n` is
`settings.TOP_N_RESULTS_TO_FETCH`. -/
noncomputable def node_rank_initial_results (current_year : ℕ) (top_n : ℕ)
    (state : GraphState) : GraphState :=
  match state.initial_search_results with
  | none =>
    { state with ranked_initial_results := some [], top_n_selected_for_full_fetch := some [] }
  | some [] =>
    { state with ranked_initial_results := some [], top_n_selected_for_full_fetch := some [] }
  | some l =>
    let ranked := rank_initial_results current_year l top_n
    { state with
      ranked_initial_results := some ranked
      top_n_selected_for_full_fetch := some ranked }

/-! ### Concrete sample inputs used by witnesses and counterexamples -/

/-- A candidate with every metadata field populated. -/
def sampleCandidate (l : String) : InitialSearchResult :=
  { title := some "RAG Evaluation", link := l, snippet := some "about RAG evaluation"
    source_name := some "arxiv.org", publication_date_str := some "2024"
    citation_count := some 5, raw_serpapi_data := none
    research_topic := some "RAG evaluation", quality_score := none }

/-- A processed document awaiting upload (no storage link yet). -/
def sampleDoc (u : String) : ProcessedContent :=
  { source_url := u, original_metadata := sampleCandidate u, title := some "RAG Evaluation"
    authors := none, publication_date := some "2024", abstract := some "about RAG evaluation"
    keywords := none, full_text_markdown := "# md", gcs_storage_link := none }

/-- An empty file system. -/
def fs0 : FS := { dirs := [], files := [] }

/-- A pipeline state template: one topic, all accumulators empty. -/
def st0 : GraphState :=
  { research_topics := ["RAG evaluation"], current_topic_index := 0
    current_topic := some "RAG evaluation"
    initial_search_results := none, ranked_initial_results := none
    top_n_selected_for_full_fetch := none, fetched_full_content := none
    processed_structured_data := none
    all_processed_data := [], all_gcs_links := [], aggregated_errors := [] }

/-- Two processed documents for the PERSIST stage. -/
def pd0 : List ProcessedContent := [sampleDoc "http://e.x/1", sampleDoc "http://e.x/2"]

/-- State entering the PERSIST stage with `pd0` pending. -/
def stStore : GraphState := { st0 with processed_structured_data := some pd0 }

/-- Upload collaborator that fails every upload. -/
def uploadFail : ℕ → Option String := fun _ => none

/-- Upload collaborator that succeeds only for the first item. -/
def uploadHalf : ℕ → Option String :=
  fun i => if i = 0 then some "https://storage.googleapis.com/b/1.md" else none

/-- MarkItDown collaborator that always converts successfully. -/
def convOk : ConvertInput → CallOutcome (Option String) :=
  fun _ => CallOutcome.returns (some "# converted")

/-- A fetched item whose kind could not be classified. -/
def fUnknown : FullContentData :=
  { source_url := "http://e.x/u", original_metadata := sampleCandidate "http://e.x/u"
    file_path := none, raw_content := some "<p>x</p>", content_type := "unknown"
    download_successful := true, error_message := none }

/-- A fetched HTML item whose fetch FAILED but which still carries raw
text: the converter itself does not look at `download_successful`. -/
def fFailedHtml : FullContentData :=
  { source_url := "http://e.x/f", original_metadata := sampleCandidate "http://e.x/f"
    file_path := none, raw_content := some "<p>stale</p>", content_type := "html"
    download_successful := false
    error_message := some "Failed to fetch webpage content from http://e.x/f." }

/-- A candidate whose URL classifies as pdf. -/
def pdfCand : InitialSearchResult := sampleCandidate "http://e.x/a.pdf"

/-- State entering the FETCH stage with a single pdf candidate. -/
def stFetch : GraphState := { st0 with top_n_selected_for_full_fetch := some [pdfCand] }

/-- Fetch collaborator: the download succeeds and writes `a.pdf`. -/
def oraclePdfOk : ℕ → CallOutcome (Option String) :=
  fun _ => CallOutcome.returns (some "a.pdf")

/-- Fetch collaborator: the call for the first candidate raises. -/
def oracleRaise0 : ℕ → CallOutcome (Option String) :=
  fun i => if i = 0 then CallOutcome.raises "boom" else CallOutcome.returns (some "ok.pdf")

/-- State entering the FETCH stage with an html and a pdf candidate. -/
def stFetch2 : GraphState :=
  { st0 with
    top_n_selected_for_full_fetch :=
      some [sampleCandidate "http://e.x/page", pdfCand] }

/-- State entering PREPARE_TOPIC before the first topic. -/
def stPrep : GraphState := { st0 with current_topic_index := -1, current_topic := none }

/-- Order on index-tagged elements characterising a STABLE descending
sort: a later position holds a strictly smaller key, or an equal key
originating from a later input position. -/
def RIdx {α : Type} (key : α → ℝ) (p q : ℕ × α) : Prop :=
  key q.2 < key p.2 ∨ (key p.2 = key q.2 ∧ p.1 < q.1)

/-! ## Claims -/

/-- C10: the ContentConverter converts only when the content kind matches
the populated payload — an "unknown"-kind item always yields null even
with a payload present, a pdf-kind item without a local file reference is
never converted from its raw text, and an html-kind item without
(non-empty) raw text is never converted from a file reference. -/
theorem C10_convert_kind_payload_match
    (conv : ConvertInput → CallOutcome (Option String)) (f : FullContentData) :
    (f.content_type = "unknown" → convert_content_to_markdown conv f = none) ∧
    (f.content_type = "pdf" → f.file_path = none →
      convert_content_to_markdown conv f = none) ∧
    (f.content_type = "html" → rawContentTruthy f = false →
      convert_content_to_markdown conv f = none) := by
  refine ⟨fun h1 => ?_, fun h1 h2 => ?_, fun h1 h2 => ?_⟩
  · simp [convert_content_to_markdown, h1]
  · simp [convert_content_to_markdown, h1, h2]
  · simp [convert_content_to_markdown, h1, h2]

/-- Witness for C10 at a concrete unknown-kind item with a payload. -/
theorem C10_convert_kind_payload_match_witness :
    convert_content_to_markdown convOk fUnknown = none :=
  (C10_convert_kind_payload_match convOk fUnknown).1 rfl

/-- C5 counterexample: the converter does NOT return null merely because
`success=false` — an html item with raw text but a failed fetch is
converted anyway, so the claim's "returns null whenever success=false"
is false on the code. -/
theorem C5_counterexample :
    fFailedHtml.download_successful = false ∧
    (convert_content_to_markdown convOk fFailedHtml).isSome = true := by
  exact ⟨rfl, rfl⟩

/-- C5 (amended): the converter returns null exactly on a payload/kind
mismatch — it never checks `success`; inputs with `success=false` are
filtered out by the caller `node_process_full_content`, whose guard
requires `download_successful` before the converter is ever invoked. -/
theorem C5_null_on_missing_payload
    (conv : ConvertInput → CallOutcome (Option String)) (f : FullContentData) :
    (¬(f.file_path.isSome = true ∧ f.content_type = "pdf") →
      ¬(rawContentTruthy f = true ∧ f.content_type = "html") →
      convert_content_to_markdown conv f = none) ∧
    (∀ (state : GraphState) (fl : List FullContentData),
      state.fetched_full_content = some fl →
      (node_process_full_content conv state).all_processed_data =
        state.all_processed_data ++
          (fl.filter processGuard).filterMap (convert_content_to_markdown conv) ∧
      (f ∈ fl → f.download_successful = false → f ∉ fl.filter processGuard)) := by
  constructor
  · intro h1 h2
    unfold convert_content_to_markdown
    rw [if_neg, if_neg]
    · simpa using h2
    · simpa using h1
  · intro state fl hfl
    constructor
    · cases hstate : state.fetched_full_content with
      | none => rw [hstate] at hfl; cases hfl
      | some gl =>
        rw [hstate] at hfl
        cases hfl
        cases fl with
        | nil => simp [node_process_full_content, hstate]
        | cons a as => simp [node_process_full_content, hstate]
    · intro _ hfail hmem
      have := (List.mem_filter.mp hmem).2
      simp [processGuard, hfail] at this

/-- Witness for C5's amended statement: a concrete item with no matching
payload is skipped, and a concrete failed item never passes the caller's
guard. -/
theorem C5_null_on_missing_payload_witness :
    convert_content_to_markdown convOk fUnknown = none ∧
    (fFailedHtml ∈ [fFailedHtml] → fFailedHtml.download_successful = false →
      fFailedHtml ∉ [fFailedHtml].filter processGuard) := by
  constructor
  · exact (C5_null_on_missing_payload convOk fUnknown).1 (by simp [fUnknown])
      (by simp [fUnknown])
  · exact fun h1 h2 =>
      ((C5_null_on_missing_payload convOk fFailedHtml).2
        { st0 with fetched_full_content := some [fFailedHtml] } [fFailedHtml] rfl).2 h1 h2

/-- Structure of a successful fetch result: pdf-kind came with only a
file path, html-kind with only (non-empty) raw text. -/
theorem fetchOne_success_shape (call : CallOutcome (Option String))
    (r : InitialSearchResult)
    (h : (fetchOne call r).download_successful = true) :
    ((fetchOne call r).content_type = "pdf" ∧
      ((fetchOne call r).file_path).isSome = true ∧
      (fetchOne call r).raw_content = none) ∨
    ((fetchOne call r).content_type = "html" ∧
      (fetchOne call r).file_path = none ∧
      ((fetchOne call r).raw_content).isSome = true) := by
  rcases call with val | m
  · rcases val with _ | s
    · by_cases hp : strEndsWith (lowerStr r.link) ".pdf" = true
      · simp [fetchOne, hp] at h
      · simp [fetchOne, hp] at h
    · by_cases hp : strEndsWith (lowerStr r.link) ".pdf" = true
      · left; simp [fetchOne, hp]
      · by_cases he : s.isEmpty = true
        · simp [fetchOne, hp, he] at h
        · right; simp [fetchOne, hp, he]
  · by_cases hp : strEndsWith (lowerStr r.link) ".pdf" = true <;>
      simp [fetchOne, hp] at h

/-- C9: every FetchedContent the FETCH stage produces with success=true
has exactly one payload: pdf-classified candidates carry only the local
file reference, html-classified candidates only the raw text. -/
theorem C9_success_exactly_one_payload
    (oracle : ℕ → CallOutcome (Option String)) (fs : FS) (state : GraphState)
    (fl : List FullContentData) (f : FullContentData)
    (hfl : ((node_fetch_full_content oracle fs state).1).fetched_full_content = some fl)
    (hmem : f ∈ fl) (hsucc : f.download_successful = true) :
    (f.content_type = "pdf" ∧ (f.file_path).isSome = true ∧ f.raw_content = none) ∨
    (f.content_type = "html" ∧ f.file_path = none ∧ (f.raw_content).isSome = true) := by
  unfold node_fetch_full_content at hfl
  rcases hsel : state.top_n_selected_for_full_fetch with _ | sel
  · rw [hsel] at hfl
    simp at hfl
    subst hfl
    cases hmem
  · rcases sel with _ | ⟨a, rest⟩
    · rw [hsel] at hfl
      simp at hfl
      subst hfl
      cases hmem
    · rw [hsel] at hfl
      have hfl2 : ((a :: rest).enum).map (fun p => fetchOne (oracle p.1) p.2) = fl :=
        Option.some_inj.mp hfl
      subst hfl2
      rcases List.mem_map.mp hmem with ⟨p, _, rfl⟩
      exact fetchOne_success_shape (oracle p.1) p.2 hsucc

/-- Witness for C9 at a concrete successful pdf fetch. -/
theorem C9_success_exactly_one_payload_witness :
    (fetchOne (oraclePdfOk 0) pdfCand).content_type = "pdf" ∧
    ((fetchOne (oraclePdfOk 0) pdfCand).file_path).isSome = true ∧
    (fetchOne (oraclePdfOk 0) pdfCand).raw_content = none := by
  have h := C9_success_exactly_one_payload oraclePdfOk fs0 stFetch
    [fetchOne (oraclePdfOk 0) pdfCand]
    (fetchOne (oraclePdfOk 0) pdfCand) rfl (List.mem_singleton.mpr rfl) (by decide)
  rcases h with h | h
  · exact h
  · exact absurd h.1 (by decide)

/-- C2: the FETCH stage returns exactly one FetchedContent per candidate,
in input order; a collaborator failure or exception for one candidate is
recorded in that item's errorMessage with success=false (and the message
is appended to the aggregated errors), it never prevents producing
entries for the remaining candidates, and the stage — a total function
of the per-candidate call outcomes — lets no exception escape. -/
theorem C2_fetch_isolation (oracle : ℕ → CallOutcome (Option String))
    (fs : FS) (state : GraphState) (sel : List InitialSearchResult)
    (hsel : state.top_n_selected_for_full_fetch = some sel) :
    ((node_fetch_full_content oracle fs state).1).fetched_full_content =
      some (sel.enum.map (fun p => fetchOne (oracle p.1) p.2)) ∧
    (sel.enum.map (fun p => fetchOne (oracle p.1) p.2)).length = sel.length ∧
    (∀ i r, (i, r) ∈ sel.enum →
      (fetchOne (oracle i) r).source_url = r.link ∧
      (fetchOne (oracle i) r).original_metadata = r ∧
      ((fetchOne (oracle i) r).download_successful = false ↔
        ((fetchOne (oracle i) r).error_message).isSome = true)) ∧
    ((node_fetch_full_content oracle fs state).1).aggregated_errors =
      state.aggregated_errors ++
        sel.enum.filterMap (fun p => (fetchOne (oracle p.1) p.2).error_message) := by
  have hshape : ∀ i r,
      (fetchOne (oracle i) r).source_url = r.link ∧
      (fetchOne (oracle i) r).original_metadata = r ∧
      ((fetchOne (oracle i) r).download_successful = false ↔
        ((fetchOne (oracle i) r).error_message).isSome = true) := by
    intro i r
    rcases hc : oracle i with val | m
    · rcases val with _ | s
      · by_cases hp : strEndsWith (lowerStr r.link) ".pdf" = true <;>
          simp [fetchOne, hp]
      · by_cases hp : strEndsWith (lowerStr r.link) ".pdf" = true
        · simp [fetchOne, hp]
        · by_cases he : s.isEmpty = true <;> simp [fetchOne, hp, he]
    · by_cases hp : strEndsWith (lowerStr r.link) ".pdf" = true <;>
        simp [fetchOne, hp]
  rcases sel with _ | ⟨a, rest⟩
  · refine ⟨?_, by simp, fun i r hm => hshape i r, ?_⟩
    · simp [node_fetch_full_content, hsel]
    · simp [node_fetch_full_content, hsel]
  · refine ⟨?_, by simp, fun i r hm => hshape i r, ?_⟩
    · simp [node_fetch_full_content, hsel]
    · simp [node_fetch_full_content, hsel]

/-- Witness for C2: a two-candidate fetch where the first call raises
still yields one FetchedContent per candidate. -/
theorem C2_fetch_isolation_witness :
    ((node_fetch_full_content oracleRaise0 fs0 stFetch2).1).fetched_full_content =
      some (([sampleCandidate "http://e.x/page", pdfCand].enum).map
        (fun p => fetchOne (oracleRaise0 p.1) p.2)) :=
  (C2_fetch_isolation oracleRaise0 fs0 stFetch2
    [sampleCandidate "http://e.x/page", pdfCand] rfl).1

/-- C3: the three cross-topic accumulators only grow under every node of
the pipeline (each node's output accumulator extends the input one), and
PREPARE_TOPIC clears every per-topic transient field while leaving all
three accumulators exactly unchanged (and changes nothing at all when
the topics are exhausted). -/
theorem C3_accumulators_monotone :
    (∀ s : GraphState,
      (node_prepare_next_topic s).all_processed_data = s.all_processed_data ∧
      (node_prepare_next_topic s).all_gcs_links = s.all_gcs_links ∧
      (node_prepare_next_topic s).aggregated_errors = s.aggregated_errors ∧
      (s.current_topic_index + 1 < (s.research_topics.length : ℤ) →
        (node_prepare_next_topic s).initial_search_results = none ∧
        (node_prepare_next_topic s).ranked_initial_results = none ∧
        (node_prepare_next_topic s).top_n_selected_for_full_fetch = none ∧
        (node_prepare_next_topic s).fetched_full_content = none ∧
        (node_prepare_next_topic s).processed_structured_data = none) ∧
      (¬ s.current_topic_index + 1 < (s.research_topics.length : ℤ) →
        node_prepare_next_topic s = s)) ∧
    (∀ (sr : CallOutcome (List RawHit)) (vl : String → Bool) (s : GraphState),
      s.all_processed_data <+: (node_fetch_initial_results sr vl s).all_processed_data ∧
      s.all_gcs_links <+: (node_fetch_initial_results sr vl s).all_gcs_links ∧
      s.aggregated_errors <+: (node_fetch_initial_results sr vl s).aggregated_errors) ∧
    (∀ (y n : ℕ) (s : GraphState),
      s.all_processed_data <+: (node_rank_initial_results y n s).all_processed_data ∧
      s.all_gcs_links <+: (node_rank_initial_results y n s).all_gcs_links ∧
      s.aggregated_errors <+: (node_rank_initial_results y n s).aggregated_errors) ∧
    (∀ (oracle : ℕ → CallOutcome (Option String)) (fs : FS) (s : GraphState),
      s.all_processed_data <+: ((node_fetch_full_content oracle fs s).1).all_processed_data ∧
      s.all_gcs_links <+: ((node_fetch_full_content oracle fs s).1).all_gcs_links ∧
      s.aggregated_errors <+: ((node_fetch_full_content oracle fs s).1).aggregated_errors) ∧
    (∀ (conv : ConvertInput → CallOutcome (Option String)) (s : GraphState),
      s.all_processed_data <+: (node_process_full_content conv s).all_processed_data ∧
      s.all_gcs_links <+: (node_process_full_content conv s).all_gcs_links ∧
      s.aggregated_errors <+: (node_process_full_content conv s).aggregated_errors) ∧
    (∀ (upload : ℕ → Option String) (fs : FS) (s : GraphState),
      s.all_processed_data <+: ((node_store_results upload fs s).1).all_processed_data ∧
      s.all_gcs_links <+: ((node_store_results upload fs s).1).all_gcs_links ∧
      s.aggregated_errors <+: ((node_store_results upload fs s).1).aggregated_errors) := by
  refine ⟨?_, ?_, ?_, ?_, ?_, ?_⟩
  · intro s
    by_cases h : s.current_topic_index + 1 < (s.research_topics.length : ℤ)
    · refine ⟨?_, ?_, ?_, fun _ => ?_, fun hc => absurd h hc⟩ <;>
        simp [node_prepare_next_topic, h]
    · refine ⟨?_, ?_, ?_, fun hc => absurd hc h, fun _ => ?_⟩ <;>
        simp [node_prepare_next_topic, h]
  · intro sr vl s
    rcases hct : s.current_topic with _ | topic
    · refine ⟨?_, ?_, ?_⟩ <;> simp only [node_fetch_initial_results, hct] <;>
        first
          | exact List.prefix_rfl
          | exact List.prefix_append _ _
    · by_cases hemp : topic.isEmpty = true <;>
        refine ⟨?_, ?_, ?_⟩ <;> simp only [node_fetch_initial_results, hct, hemp,
          Bool.false_eq_true, if_true, if_false] <;>
        first
          | exact List.prefix_rfl
          | exact List.prefix_append _ _
          | (rw [List.append_assoc]; exact List.prefix_append _ _)
  · intro y n s
    rcases h : s.initial_search_results with _ | l
    · simp [node_rank_initial_results, h]
    · rcases l with _ | ⟨a, rest⟩ <;> simp [node_rank_initial_results, h]
  · intro oracle fs s
    rcases h : s.top_n_selected_for_full_fetch with _ | sel
    · simp [node_fetch_full_content, h]
    · rcases sel with _ | ⟨a, rest⟩ <;>
        simp [node_fetch_full_content, h, List.prefix_append]
  · intro conv s
    rcases h : s.fetched_full_content with _ | fl
    · simp [node_process_full_content, h]
    · rcases fl with _ | ⟨a, rest⟩ <;>
        simp [node_process_full_content, h, List.prefix_append]
  · intro upload fs s
    rcases h : s.processed_structured_data with _ | pd
    · simp [node_store_results, h]
    · rcases pd with _ | ⟨a, rest⟩
      · simp [node_store_results, h]
      · rcases hct : s.current_topic with _ | topic <;>
          simp [node_store_results, h, hct, List.prefix_append]

/-- Witness for C3: concrete PREPARE_TOPIC step before the first topic
clears the transients and leaves the error accumulator unchanged. -/
theorem C3_accumulators_monotone_witness :
    (node_prepare_next_topic stPrep).initial_search_results = none ∧
    (node_prepare_next_topic stPrep).aggregated_errors = stPrep.aggregated_errors := by
  have h := C3_accumulators_monotone.1 stPrep
  exact ⟨(h.2.2.2.1 (by decide)).1, h.2.2.1⟩

/-- The upload loop returns the input items in order, with each item
transformed by its own upload outcome. -/
theorem storeStep_fold_fst (upload : ℕ → Option String) (l : List ProcessedContent)
    (acc : List ProcessedContent) (fsa : FS) (i : ℕ) :
    (l.foldl (storeStep upload) (acc, fsa, i)).1 =
      acc ++ (List.enumFrom i l).map (fun p => storeItem (upload p.1) p.2) := by
  induction l generalizing acc fsa i with
  | nil => simp
  | cons a t ih =>
    rw [List.foldl_cons, List.enumFrom_cons]
    show (t.foldl (storeStep upload)
      (acc ++ [storeItem (upload i) a], _, i + 1)).1 = _
    rw [ih]
    simp

/-- With no pre-existing links, the number of linked items equals the
number of successful uploads. -/
theorem count_links_map_enumFrom (upload : ℕ → Option String)
    (l : List ProcessedContent) (i : ℕ)
    (h : ∀ d ∈ l, d.gcs_storage_link = none) :
    ((List.enumFrom i l).map (fun p => storeItem (upload p.1) p.2)).countP
        (fun d => (d.gcs_storage_link).isSome) =
      (List.range' i l.length).countP (fun j => (upload j).isSome) := by
  induction l generalizing i with
  | nil => simp
  | cons a t ih =>
    have ha := h a (List.mem_cons_self a t)
    have ht := fun d hd => h d (List.mem_cons_of_mem a hd)
    rw [List.enumFrom_cons, List.map_cons, List.length_cons, List.range'_succ,
      List.countP_cons, List.countP_cons, ih (i + 1) ht]
    rcases hu : upload i with _ | url
    · simp [storeItem, hu, ha]
    · simp [storeItem, hu]

/-- Length of a `filterMap` as a count of `isSome` results. -/
theorem length_filterMap_eq_countP {α β : Type} (f : α → Option β) (l : List α) :
    (l.filterMap f).length = l.countP (fun a => (f a).isSome) := by
  induction l with
  | nil => rfl
  | cons a t ih =>
    rcases hf : f a with _ | b <;>
      simp [List.filterMap_cons, hf, List.countP_cons, ih]

/-- The stored list is the input list with per-item upload outcomes
applied, in order. -/
theorem store_fst_eq (upload : ℕ → Option String) (pd : List ProcessedContent)
    (bp : String) (fs : FS) (hne : pd ≠ []) :
    (store_processed_content upload pd bp fs).1 =
      (pd.enum).map (fun p => storeItem (upload p.1) p.2) := by
  rcases pd with _ | ⟨a, t⟩
  · exact absurd rfl hne
  · show ((a :: t).foldl (storeStep upload) ([], _, 0)).1 = _
    rw [storeStep_fold_fst]
    rfl

/-- C1 counterexample: for two documents that both fail to upload
(`N = 2`, `K = 0`), the PERSIST stage appends ONE aggregated error, not
`N − K = 2` — the code emits a single per-topic summary entry. -/
theorem C1_persist_error_count_counterexample :
    pd0.length = 2 ∧
    ((store_processed_content uploadFail pd0
        (topicBasePath "RAG evaluation") fs0).1).countP
        (fun d => (d.gcs_storage_link).isSome) = 0 ∧
    ((node_store_results uploadFail fs0 stStore).1).aggregated_errors.length =
      stStore.aggregated_errors.length + 1 ∧
    ¬ ((node_store_results uploadFail fs0 stStore).1).aggregated_errors.length =
      stStore.aggregated_errors.length + 2 := by
  refine ⟨rfl, by decide, by decide, by decide⟩

/-- C1 (amended): for N documents entering PERSIST (none pre-linked) of
which K upload successfully, the stage's output contains all N documents
with exactly K non-null storage links, `allStorageLinks` grows by
exactly K, and the aggregated error list grows by exactly one entry when
K < N (a single per-topic summary) and by none when K = N. -/
theorem C1_persist_output_and_errors (upload : ℕ → Option String)
    (pd : List ProcessedContent) (topic : String) (fs : FS) (state : GraphState)
    (hpd : state.processed_structured_data = some pd) (hne : pd ≠ [])
    (htopic : state.current_topic = some topic)
    (hnone : ∀ d ∈ pd, d.gcs_storage_link = none) :
    (store_processed_content upload pd (topicBasePath topic) fs).1.length = pd.length ∧
    ((store_processed_content upload pd (topicBasePath topic) fs).1).countP
        (fun d => (d.gcs_storage_link).isSome) =
      (List.range pd.length).countP (fun i => (upload i).isSome) ∧
    ((node_store_results upload fs state).1).all_gcs_links.length =
      state.all_gcs_links.length +
        (List.range pd.length).countP (fun i => (upload i).isSome) ∧
    ((node_store_results upload fs state).1).aggregated_errors.length =
      state.aggregated_errors.length +
        (if (List.range pd.length).countP (fun i => (upload i).isSome) < pd.length
          then 1 else 0) := by
  have hfst := store_fst_eq upload pd (topicBasePath topic) fs hne
  have hlen : (store_processed_content upload pd (topicBasePath topic) fs).1.length
      = pd.length := by
    rw [hfst, List.length_map, List.enum_length]
  have hcount : ((store_processed_content upload pd (topicBasePath topic) fs).1).countP
      (fun d => (d.gcs_storage_link).isSome)
      = (List.range pd.length).countP (fun i => (upload i).isSome) := by
    rw [hfst, List.range_eq_range']
    exact count_links_map_enumFrom upload pd 0 hnone
  have hlinks : ((store_processed_content upload pd (topicBasePath topic) fs).1.filterMap
      (fun item => item.gcs_storage_link)).length
      = (List.range pd.length).countP (fun i => (upload i).isSome) := by
    rw [length_filterMap_eq_countP]
    exact hcount
  refine ⟨hlen, hcount, ?_, ?_⟩
  · rcases pd with _ | ⟨a, t⟩
    · exact absurd rfl hne
    · simp only [node_store_results, hpd, htopic]
      rw [List.length_append, hlinks]
  · rcases pd with _ | ⟨a, t⟩
    · exact absurd rfl hne
    · simp only [node_store_results, hpd, htopic]
      rw [List.length_append, hlinks]
      by_cases hK : (List.range (a :: t).length).countP (fun i => (upload i).isSome)
          < (a :: t).length
      · rw [if_pos hK, if_pos]
        · rfl
        · exact Nat.sub_pos_of_lt hK
      · rw [if_neg hK, if_neg]
        · rfl
        · intro hpos
          exact hK (Nat.lt_of_sub_pos hpos)

/-- Witness for C1's amended statement: one of two uploads succeeds, so
`allStorageLinks` grows by exactly one. -/
theorem C1_persist_output_and_errors_witness :
    ((node_store_results uploadHalf fs0 stStore).1).all_gcs_links.length = 1 := by
  have h := C1_persist_output_and_errors uploadHalf pd0 "RAG evaluation" fs0 stStore
    rfl (by simp [pd0]) rfl
    (by intro d hd
        simp only [pd0, List.mem_cons, List.mem_singleton, List.not_mem_nil,
          or_false] at hd
        rcases hd with rfl | rfl <;> rfl)
  rw [h.2.2.1]
  decide

/-- The dirs component is untouched by `writeFile`. -/
theorem FS_writeFile_dirs (fs : FS) (d n : String) :
    (fs.writeFile d n).dirs = fs.dirs := by
  unfold FS.writeFile
  split <;> rfl

/-- The directory just ensured by `mkdirP` exists afterwards. -/
theorem FS_mkdirP_mem (fs : FS) (d : String) : d ∈ (fs.mkdirP d).dirs := by
  unfold FS.mkdirP
  split
  · assumption
  · exact List.mem_cons_self d fs.dirs

/-- Unlinking a list of names from a directory filters exactly those
(directory, name) pairs out of the file table. -/
theorem files_foldl_unlink (d : String) (names : List String) (fs : FS) :
    ((names.foldl (fun f n => f.unlink d n) fs)).files =
      fs.files.filter (fun p => !(decide (p.1 = d) && decide (p.2 ∈ names))) := by
  induction names generalizing fs with
  | nil => simp
  | cons n ns ih =>
    rw [List.foldl_cons, ih]
    show ((fs.unlink d n).files).filter _ = _
    unfold FS.unlink
    rw [List.filter_filter]
    apply List.filter_congr
    intro p _
    by_cases h1 : p.1 = d <;> by_cases h2 : p.2 = n <;> by_cases h3 : p.2 ∈ ns <;>
      simp [h1, h2, h3, Prod.ext_iff]

/-- After the `finally` cleanup the scratch directory is gone and holds
no files. -/
theorem cleanupDir_removes (fs : FS) (d : String) :
    d ∉ (cleanupDir fs d).dirs ∧ ∀ f, (d, f) ∉ (cleanupDir fs d).files := by
  have hnof : ∀ f, (d, f) ∉ ((fs.lsDir d).foldl (fun f n => f.unlink d n) fs).files := by
    intro f hmem
    rw [files_foldl_unlink] at hmem
    have h2 := List.mem_filter.mp hmem
    have hls : f ∈ fs.lsDir d := by
      unfold FS.lsDir
      exact List.mem_map.mpr ⟨(d, f), List.mem_filter.mpr ⟨h2.1, by simp⟩, rfl⟩
    simp [hls] at h2
  have hfe : (((fs.lsDir d).foldl (fun f n => f.unlink d n) fs).files).filter
      (fun p => decide (p.1 = d)) = [] := by
    rw [List.filter_eq_nil_iff]
    intro p hp hpd
    have hpd2 : p.1 = d := by simpa using hpd
    have hps : p = (d, p.2) := by
      rw [Prod.ext_iff]
      exact ⟨hpd2, rfl⟩
    rw [hps] at hp
    exact hnof p.2 hp
  have hls2 : ((fs.lsDir d).foldl (fun f n => f.unlink d n) fs).lsDir d = [] := by
    show ((((fs.lsDir d).foldl (fun f n => f.unlink d n) fs).files).filter
        (fun p => decide (p.1 = d))).map Prod.snd = []
    rw [hfe]
    rfl
  constructor
  · intro hmem
    unfold cleanupDir FS.rmdir at hmem
    rw [if_pos hls2] at hmem
    have h3 := List.mem_filter.mp hmem
    simp at h3
  · intro f hmem
    unfold cleanupDir FS.rmdir at hmem
    rw [if_pos hls2] at hmem
    exact hnof f hmem

/-- C6 counterexample: a successful pdf fetch leaves the FETCH scratch
directory and the downloaded file in place when the stage exits — the
pipeline never deletes `./temp_pdfs`, so "every temporary scratch
directory … is deleted on both success and failure exit paths" is false
on the code. -/
theorem C6_scratch_counterexample :
    tempPdfDir ∈ (((node_fetch_full_content oraclePdfOk fs0 stFetch).2)).dirs ∧
    (tempPdfDir, "a.pdf") ∈ (((node_fetch_full_content oraclePdfOk fs0 stFetch).2)).files := by
  constructor <;> decide

/-- C6 (amended): only the PERSIST upload scratch directory is scoped —
`store_processed_content` deletes `./temp_gcs_uploads` and all its
contents on every exit path — while the FETCH download scratch directory
`./temp_pdfs` is created but never deleted by the stage. -/
theorem C6_scratch_dirs (upload : ℕ → Option String) (pd : List ProcessedContent)
    (bp : String) (fs : FS) :
    (pd ≠ [] →
      tempGcsDir ∉ ((store_processed_content upload pd bp fs).2).dirs ∧
      ∀ f, (tempGcsDir, f) ∉ ((store_processed_content upload pd bp fs).2).files) ∧
    (∀ (oracle : ℕ → CallOutcome (Option String)) (fsa : FS) (state : GraphState)
        (sel : List InitialSearchResult),
      state.top_n_selected_for_full_fetch = some sel → sel ≠ [] →
      tempPdfDir ∈ (((node_fetch_full_content oracle fsa state).2)).dirs) := by
  constructor
  · intro hne
    rcases pd with _ | ⟨a, t⟩
    · exact absurd rfl hne
    · exact cleanupDir_removes _ tempGcsDir
  · intro oracle fsa state sel hsel hne
    rcases sel with _ | ⟨a, t⟩
    · exact absurd rfl hne
    · simp only [node_fetch_full_content, hsel]
      have hdirs : ∀ (l : List (ℕ × InitialSearchResult)) (f : FS),
          (l.foldl (fun f p =>
            match fetchWrite (oracle p.1) p.2 with
            | some name => f.writeFile tempPdfDir name
            | none => f) f).dirs = f.dirs := by
        intro l
        induction l with
        | nil => intro f; rfl
        | cons p t2 ih =>
          intro f
          rw [List.foldl_cons, ih]
          rcases fetchWrite (oracle p.1) p.2 with _ | name
          · rfl
          · exact (FS_writeFile_dirs f tempPdfDir name).symm ▸ rfl
      rw [hdirs]
      exact FS_mkdirP_mem fsa tempPdfDir

/-- Witness for C6's amended statement: a concrete failing store run
still removes the upload scratch directory. -/
theorem C6_scratch_dirs_witness :
    tempGcsDir ∉ ((store_processed_content uploadFail pd0 "bp" fs0).2).dirs :=
  ((C6_scratch_dirs uploadFail pd0 "bp" fs0).1 (by simp [pd0])).1

/-- Inserting grows the length by one. -/
theorem length_insertByKeyDesc {α : Type} (key : α → ℝ) (x : α) (l : List α) :
    (insertByKeyDesc key x l).length = l.length + 1 := by
  induction l with
  | nil => rfl
  | cons y ys ih =>
    unfold insertByKeyDesc
    split
    · rfl
    · simp [ih]

/-- The stable sort preserves length. -/
theorem length_sortByKeyDesc {α : Type} (key : α → ℝ) (l : List α) :
    (sortByKeyDesc key l).length = l.length := by
  induction l with
  | nil => rfl
  | cons x xs ih =>
    show (insertByKeyDesc key x (sortByKeyDesc key xs)).length = xs.length + 1
    rw [length_insertByKeyDesc, ih]

/-- Membership in an insertion. -/
theorem mem_insertByKeyDesc {α : Type} (key : α → ℝ) (x a : α) (l : List α) :
    a ∈ insertByKeyDesc key x l ↔ a = x ∨ a ∈ l := by
  induction l with
  | nil => simp [insertByKeyDesc]
  | cons y ys ih =>
    unfold insertByKeyDesc
    split
    · simp [List.mem_cons]
    · simp only [List.mem_cons, ih]
      tauto

/-- The stable sort preserves membership. -/
theorem mem_sortByKeyDesc {α : Type} (key : α → ℝ) (a : α) (l : List α) :
    a ∈ sortByKeyDesc key l ↔ a ∈ l := by
  induction l with
  | nil => simp [sortByKeyDesc]
  | cons x xs ih =>
    show a ∈ insertByKeyDesc key x (sortByKeyDesc key xs) ↔ _
    rw [mem_insertByKeyDesc, ih, List.mem_cons]

/-- Insertion into a descending list stays descending. -/
theorem pairwise_insertByKeyDesc {α : Type} (key : α → ℝ) (x : α) (l : List α)
    (h : l.Pairwise (fun a b => key b ≤ key a)) :
    (insertByKeyDesc key x l).Pairwise (fun a b => key b ≤ key a) := by
  induction l with
  | nil => simp [insertByKeyDesc]
  | cons y ys ih =>
    rcases List.pairwise_cons.mp h with ⟨hy, hys⟩
    unfold insertByKeyDesc
    split
    · rename_i hxy
      refine List.pairwise_cons.mpr ⟨?_, h⟩
      intro b hb
      rcases List.mem_cons.mp hb with rfl | hb2
      · exact hxy
      · exact le_trans (hy b hb2) hxy
    · rename_i hxy
      refine List.pairwise_cons.mpr ⟨?_, ih hys⟩
      intro b hb
      rcases (mem_insertByKeyDesc key x b ys).mp hb with rfl | hb2
      · exact le_of_not_le hxy
      · exact hy b hb2

/-- The stable sort is sorted by descending key. -/
theorem pairwise_sortByKeyDesc {α : Type} (key : α → ℝ) (l : List α) :
    (sortByKeyDesc key l).Pairwise (fun a b => key b ≤ key a) := by
  induction l with
  | nil => simp [sortByKeyDesc]
  | cons x xs ih =>
    show (insertByKeyDesc key x (sortByKeyDesc key xs)).Pairwise _
    exact pairwise_insertByKeyDesc key x _ ih

/-- Inserting an element whose index is below every index of the list
preserves the stability order. -/
theorem pairwise_RIdx_insert {α : Type} (key : α → ℝ) (x : ℕ × α) (l : List (ℕ × α))
    (hpw : l.Pairwise (RIdx key)) (hidx : ∀ q ∈ l, x.1 < q.1) :
    (insertByKeyDesc (fun p => key p.2) x l).Pairwise (RIdx key) := by
  induction l with
  | nil => simp [insertByKeyDesc]
  | cons y ys ih =>
    rcases List.pairwise_cons.mp hpw with ⟨hy, hys⟩
    unfold insertByKeyDesc
    split
    · rename_i hxy
      refine List.pairwise_cons.mpr ⟨?_, hpw⟩
      intro b hb
      rcases List.mem_cons.mp hb with rfl | hb2
      · rcases lt_or_eq_of_le hxy with hlt | heq
        · exact Or.inl hlt
        · exact Or.inr ⟨heq.symm, hidx b (List.mem_cons_self _ _)⟩
      · rcases hy b hb2 with hlt | ⟨heq, _⟩
        · exact Or.inl (lt_of_lt_of_le hlt hxy)
        · rcases lt_or_eq_of_le hxy with hlt2 | heq2
          · exact Or.inl (heq ▸ hlt2)
          · exact Or.inr ⟨heq2.symm.trans heq, hidx b (List.mem_cons_of_mem _ hb2)⟩
    · rename_i hxy
      have hlt : key x.2 < key y.2 := lt_of_not_le hxy
      refine List.pairwise_cons.mpr
        ⟨?_, ih hys (fun q hq => hidx q (List.mem_cons_of_mem _ hq))⟩
      intro b hb
      rcases (mem_insertByKeyDesc _ x b _).mp hb with rfl | hb2
      · exact Or.inl hlt
      · exact hy b hb2

/-- Sorting an index-tagged list with strictly increasing indices yields
a list ordered by the stability order: ties keep the input order. -/
theorem pairwise_RIdx_sort {α : Type} (key : α → ℝ) (l : List (ℕ × α))
    (h : l.Pairwise (fun p q => p.1 < q.1)) :
    (sortByKeyDesc (fun p => key p.2) l).Pairwise (RIdx key) := by
  induction l with
  | nil => simp [sortByKeyDesc]
  | cons x xs ih =>
    rcases List.pairwise_cons.mp h with ⟨hx, hxs⟩
    show (insertByKeyDesc (fun p => key p.2) x (sortByKeyDesc _ xs)).Pairwise _
    refine pairwise_RIdx_insert key x _ (ih hxs) ?_
    intro q hq
    exact hx q ((mem_sortByKeyDesc _ q xs).mp hq)

/-- Dropping the index tags commutes with insertion. -/
theorem map_snd_insertByKeyDesc {α : Type} (key : α → ℝ) (x : ℕ × α)
    (l : List (ℕ × α)) :
    (insertByKeyDesc (fun p => key p.2) x l).map Prod.snd =
      insertByKeyDesc key x.2 (l.map Prod.snd) := by
  induction l with
  | nil => rfl
  | cons y ys ih =>
    show (if key y.2 ≤ key x.2 then x :: y :: ys
        else y :: insertByKeyDesc (fun p => key p.2) x ys).map Prod.snd = _
    by_cases h : key y.2 ≤ key x.2
    · rw [if_pos h]
      show x.2 :: y.2 :: ys.map Prod.snd = insertByKeyDesc key x.2 (y.2 :: ys.map Prod.snd)
      unfold insertByKeyDesc
      rw [if_pos h]
    · rw [if_neg h]
      show y.2 :: (insertByKeyDesc (fun p => key p.2) x ys).map Prod.snd =
        insertByKeyDesc key x.2 (y.2 :: ys.map Prod.snd)
      rw [ih]
      have hrhs : insertByKeyDesc key x.2 (y.2 :: ys.map Prod.snd) =
          if key y.2 ≤ key x.2 then x.2 :: y.2 :: ys.map Prod.snd
          else y.2 :: insertByKeyDesc key x.2 (ys.map Prod.snd) := rfl
      rw [hrhs, if_neg h]

/-- Dropping the index tags commutes with the stable sort. -/
theorem map_snd_sortByKeyDesc {α : Type} (key : α → ℝ) (l : List (ℕ × α)) :
    (sortByKeyDesc (fun p => key p.2) l).map Prod.snd =
      sortByKeyDesc key (l.map Prod.snd) := by
  induction l with
  | nil => rfl
  | cons x xs ih =>
    show (insertByKeyDesc (fun p => key p.2) x (sortByKeyDesc _ xs)).map Prod.snd = _
    rw [map_snd_insertByKeyDesc, ih]
    rfl

/-- Enumeration indices are strictly increasing. -/
theorem pairwise_fst_lt_enumFrom {α : Type} (i : ℕ) (l : List α) :
    (List.enumFrom i l).Pairwise (fun p q => p.1 < q.1) := by
  induction l generalizing i with
  | nil => simp
  | cons x xs ih =>
    rw [List.enumFrom_cons]
    refine List.pairwise_cons.mpr ⟨?_, ih (i + 1)⟩
    rintro ⟨qi, qa⟩ hq
    have hle := (List.mem_enumFrom hq).1
    exact lt_of_lt_of_le (Nat.lt_succ_self i) hle

/-- C4: ranking returns exactly `min topN len` candidates — the first
`topN` of the scored list under the stable descending sort — sorted by
descending quality score; the indexed form of that sort satisfies the
stability order (equal scores keep their original relative input
order), and empty input yields empty output without error. -/
theorem C4_rank_top_n (y : ℕ) (l : List InitialSearchResult) (n : ℕ) :
    (rank_initial_results y l n).length = min n l.length ∧
    (rank_initial_results y l n).Pairwise (fun a b => keyQ b ≤ keyQ a) ∧
    rank_initial_results y l n = (sortByKeyDesc keyQ (scoredList y l)).take n ∧
    (sortByKeyDesc (fun p => keyQ p.2) ((scoredList y l).enum)).map Prod.snd =
      sortByKeyDesc keyQ (scoredList y l) ∧
    (sortByKeyDesc (fun p => keyQ p.2) ((scoredList y l).enum)).Pairwise (RIdx keyQ) ∧
    rank_initial_results y ([] : List InitialSearchResult) n = [] := by
  refine ⟨?_, ?_, ?_, ?_, ?_, rfl⟩
  · rcases l with _ | ⟨a, t⟩
    · simp [rank_initial_results, scoredList]
    · show ((sortByKeyDesc keyQ (scoredList y (a :: t))).take n).length = _
      rw [List.length_take, length_sortByKeyDesc]
      simp [scoredList]
  · rcases l with _ | ⟨a, t⟩
    · simp [rank_initial_results]
    · show ((sortByKeyDesc keyQ (scoredList y (a :: t))).take n).Pairwise _
      exact (pairwise_sortByKeyDesc keyQ _).sublist (List.take_sublist n _)
  · rcases l with _ | ⟨a, t⟩
    · simp [rank_initial_results, scoredList, sortByKeyDesc]
    · rfl
  · rw [map_snd_sortByKeyDesc, List.enum_map_snd]
  · exact pairwise_RIdx_sort keyQ _ (pairwise_fst_lt_enumFrom 0 _)

/-- Each relevance contribution lies in [0, 0.5]. -/
theorem halfIfContains_bounds (topic : String) (field : Option String) :
    0 ≤ halfIfContains topic field ∧ halfIfContains topic field ≤ 0.5 := by
  rcases field with _ | t
  · norm_num [halfIfContains]
  · simp only [halfIfContains]
    split_ifs <;> norm_num

/-- The relevance component lies in [0, 1] (capped at 1.0). -/
theorem relevanceScore_bounds (rt t s : Option String) :
    0 ≤ relevanceScore rt t s ∧ relevanceScore rt t s ≤ 1 := by
  unfold relevanceScore
  by_cases h : (lowerStr (rt.getD "")).isEmpty = true
  · simp [h]
  · simp only [h, Bool.false_eq_true, if_false]
    have h1 := halfIfContains_bounds (lowerStr (rt.getD "")) t
    have h2 := halfIfContains_bounds (lowerStr (rt.getD "")) s
    constructor
    · exact le_min (by linarith [h1.1, h2.1]) (by norm_num)
    · calc min (halfIfContains (lowerStr (rt.getD "")) t +
          halfIfContains (lowerStr (rt.getD "")) s) 1.0 ≤ 1.0 := min_le_right _ _
        _ = 1 := by norm_num

/-- The recency component lies in [0, 1]: the age is clamped at 0, so a
future year cannot push the score above 1.0. -/
theorem recencyScore_bounds (cy : ℕ) (ds : Option String) :
    0 ≤ recencyScore cy ds ∧ recencyScore cy ds ≤ 1 := by
  unfold recencyScore
  rcases ds with _ | s
  · norm_num
  · by_cases he : s.isEmpty = true
    · simp [he]
    · simp only [he, Bool.false_eq_true, if_false]
      rcases hy : extractYear s with _ | year
      · norm_num
      · have hage : (0 : ℝ) ≤ ((max 0 ((cy : ℤ) - (year : ℤ)) : ℤ) : ℝ) := by
          have := le_max_left (0 : ℤ) ((cy : ℤ) - (year : ℤ))
          exact_mod_cast this
        constructor
        · exact le_max_left 0 _
        · apply max_le (by norm_num)
          have : (0 : ℝ) ≤ ((max 0 ((cy : ℤ) - (year : ℤ)) : ℤ) : ℝ) / 10.0 := by
            apply div_nonneg hage
            norm_num
          linarith

/-- The authority component takes one of the four fixed values. -/
theorem authorityScore_cases (sn : Option String) :
    authorityScore sn = 0 ∨ authorityScore sn = 0.3 ∨
    authorityScore sn = 0.7 ∨ authorityScore sn = 1.0 := by
  unfold authorityScore
  rcases sn with _ | s
  · exact Or.inl rfl
  · by_cases he : s.isEmpty = true
    · simp [he]
    · simp only [he, Bool.false_eq_true, if_false]
      by_cases h1 : (strContains (lowerStr s) "arxiv" || strContains (lowerStr s) "acm"
          || strContains (lowerStr s) "ieee") = true
      · simp [h1]
      · by_cases h2 : (strContains (lowerStr s) "researchgate"
            || strContains (lowerStr s) "academia.edu") = true
        · simp [h1, h2]
        · simp [h1, h2]

/-- The base-10 log quotient used by the citation score is a plain log
quotient. -/
theorem logb10_div_logb10 (x y : ℝ) :
    Real.logb 10 x / Real.logb 10 y = Real.log x / Real.log y := by
  have h10 : Real.log 10 ≠ 0 :=
    Real.log_ne_zero_of_pos_of_ne_one (by norm_num) (by norm_num)
  unfold Real.logb
  rw [div_div_div_comm, div_self h10, div_one]

/-- The citation component lies in [0, 1] (log-scaled, capped at 1.0). -/
theorem citationScore_bounds (cc : Option ℤ) :
    0 ≤ citationScore cc ∧ citationScore cc ≤ 1 := by
  rcases cc with _ | c
  · norm_num [citationScore]
  · simp only [citationScore]
    by_cases h1 : 0 < c
    · rw [if_pos h1]
      have hq : 0 ≤ Real.logb 10 ((c : ℝ) + 1) / Real.logb 10 1001 := by
        apply div_nonneg
        · apply Real.logb_nonneg (by norm_num)
          have : (1 : ℝ) ≤ (c : ℝ) := by exact_mod_cast h1
          linarith
        · exact le_of_lt (Real.logb_pos (by norm_num) (by norm_num))
      constructor
      · exact le_min (by norm_num) hq
      · calc min 1.0 (Real.logb 10 ((c : ℝ) + 1) / Real.logb 10 1001) ≤ 1.0 :=
            min_le_left _ _
          _ = 1 := by norm_num
    · rw [if_neg h1]
      split <;> norm_num

/-- C7: the quality score is the weighted sum
0.4·relevance + 0.2·recency + 0.1·authority + 0.3·citations, where
relevance, recency and citations each lie in [0,1], authority is one of
{0, 0.3, 0.7, 1.0}, and consequently the total lies in [0,1]. -/
theorem C7_quality_score_bounds (y : ℕ) (r : InitialSearchResult) :
    calculate_weighted_quality_score y r =
      0.4 * relevanceScore r.research_topic r.title r.snippet
        + 0.2 * recencyScore y r.publication_date_str
        + 0.1 * authorityScore r.source_name
        + 0.3 * citationScore r.citation_count ∧
    (0 ≤ relevanceScore r.research_topic r.title r.snippet ∧
      relevanceScore r.research_topic r.title r.snippet ≤ 1) ∧
    (0 ≤ recencyScore y r.publication_date_str ∧
      recencyScore y r.publication_date_str ≤ 1) ∧
    (authorityScore r.source_name = 0 ∨ authorityScore r.source_name = 0.3 ∨
      authorityScore r.source_name = 0.7 ∨ authorityScore r.source_name = 1.0) ∧
    (0 ≤ citationScore r.citation_count ∧ citationScore r.citation_count ≤ 1) ∧
    0 ≤ calculate_weighted_quality_score y r ∧
    calculate_weighted_quality_score y r ≤ 1 := by
  have h1 := relevanceScore_bounds r.research_topic r.title r.snippet
  have h2 := recencyScore_bounds y r.publication_date_str
  have h3 := authorityScore_cases r.source_name
  have h4 := citationScore_bounds r.citation_count
  have h3b : 0 ≤ authorityScore r.source_name ∧ authorityScore r.source_name ≤ 1 := by
    rcases h3 with h | h | h | h <;> rw [h] <;> norm_num
  have heq : calculate_weighted_quality_score y r =
      0.4 * relevanceScore r.research_topic r.title r.snippet
        + 0.2 * recencyScore y r.publication_date_str
        + 0.1 * authorityScore r.source_name
        + 0.3 * citationScore r.citation_count := by
    unfold calculate_weighted_quality_score
    ring
  refine ⟨heq, h1, h2, h3, h4, ?_, ?_⟩
  · rw [heq]
    linarith [h1.1, h2.1, h3b.1, h4.1]
  · rw [heq]
    linarith [h1.2, h2.2, h3b.2, h4.2]

/-- Positive citation counts score by the (capped) log quotient. -/
theorem citationScore_pos_eq (c : ℤ) (h : 0 < c) :
    citationScore (some c) = min 1.0 (Real.log ((c : ℝ) + 1) / Real.log 1001) := by
  simp only [citationScore]
  rw [if_pos h, logb10_div_logb10]

/-- The uncapped citation quotient is strictly increasing in the count. -/
theorem citation_quotient_strict_mono (a b : ℤ) (ha : 0 < a) (hab : a < b) :
    Real.log ((a : ℝ) + 1) / Real.log 1001 <
      Real.log ((b : ℝ) + 1) / Real.log 1001 := by
  have hL : (0 : ℝ) < Real.log 1001 := Real.log_pos (by norm_num)
  apply (div_lt_div_iff_of_pos_right hL).mpr
  apply Real.log_lt_log
  · have h1 : (1 : ℝ) ≤ (a : ℝ) := by exact_mod_cast ha
    linarith
  · have h2 : (a : ℝ) < (b : ℝ) := by exact_mod_cast hab
    linarith

/-- Citation subscore at 5 citations, with the cap removed. -/
theorem citationScore_five_eq :
    citationScore (some 5) = Real.log 6 / Real.log 1001 := by
  have hL : (0 : ℝ) < Real.log 1001 := Real.log_pos (by norm_num)
  rw [citationScore_pos_eq 5 (by norm_num)]
  have hx : ((5 : ℤ) : ℝ) + 1 = 6 := by norm_num
  rw [hx]
  apply min_eq_right
  have h6 : Real.log 6 < Real.log 1001 := Real.log_lt_log (by norm_num) (by norm_num)
  have := (div_le_one hL).mpr (le_of_lt h6)
  linarith

/-- Citation subscore at 99 citations, with the cap removed. -/
theorem citationScore_ninetynine_eq :
    citationScore (some 99) = Real.log 100 / Real.log 1001 := by
  have hL : (0 : ℝ) < Real.log 1001 := Real.log_pos (by norm_num)
  rw [citationScore_pos_eq 99 (by norm_num)]
  have hx : ((99 : ℤ) : ℝ) + 1 = 100 := by norm_num
  rw [hx]
  apply min_eq_right
  have h6 : Real.log 100 < Real.log 1001 := Real.log_lt_log (by norm_num) (by norm_num)
  have := (div_le_one hL).mpr (le_of_lt h6)
  linarith

/-- Citation subscore at 1000 citations hits the cap exactly. -/
theorem citationScore_thousand_eq : citationScore (some 1000) = 1 := by
  have hL : (0 : ℝ) < Real.log 1001 := Real.log_pos (by norm_num)
  rw [citationScore_pos_eq 1000 (by norm_num)]
  have hx : ((1000 : ℤ) : ℝ) + 1 = 1001 := by norm_num
  rw [hx, div_self hL.ne']
  norm_num

/-- C8: the citation subscore is ordered
score(0) = 0 < score(None) = 0.1 < score(5) < score(99) < score(1000) = 1;
for every positive count it equals the capped log quotient
min(1, log10(count+1)/log10(1001)), which is strictly increasing in the
count as long as the cap has not been reached. -/
theorem C8_citation_ordering :
    citationScore (some 0) = 0 ∧
    citationScore none = 0.1 ∧
    citationScore (some 0) < citationScore none ∧
    citationScore none < citationScore (some 5) ∧
    citationScore (some 5) < citationScore (some 99) ∧
    citationScore (some 99) < citationScore (some 1000) ∧
    citationScore (some 1000) = 1 ∧
    (∀ c : ℤ, 0 < c → citationScore (some c) =
      min 1.0 (Real.logb 10 ((c : ℝ) + 1) / Real.logb 10 1001)) ∧
    (∀ a b : ℤ, 0 < a → a < b → citationScore (some b) < 1 →
      citationScore (some a) < citationScore (some b)) := by
  have hL : (0 : ℝ) < Real.log 1001 := Real.log_pos (by norm_num)
  have hzero : citationScore (some 0) = 0 := by norm_num [citationScore]
  have hnone : citationScore none = 0.1 := rfl
  have hfive : citationScore none < citationScore (some 5) := by
    rw [hnone, citationScore_five_eq]
    rw [lt_div_iff₀ hL]
    have hpow : Real.log 1001 < Real.log (6 ^ (10 : ℕ)) :=
      Real.log_lt_log (by norm_num) (by norm_num)
    rw [Real.log_pow] at hpow
    have hcast : ((10 : ℕ) : ℝ) = 10 := by norm_num
    rw [hcast] at hpow
    linarith
  refine ⟨hzero, hnone, ?_, hfive, ?_, ?_, citationScore_thousand_eq, ?_, ?_⟩
  · rw [hzero, hnone]
    norm_num
  · rw [citationScore_five_eq, citationScore_ninetynine_eq]
    exact (div_lt_div_iff_of_pos_right hL).mpr (Real.log_lt_log (by norm_num) (by norm_num))
  · rw [citationScore_ninetynine_eq, citationScore_thousand_eq]
    exact (div_lt_one hL).mpr (Real.log_lt_log (by norm_num) (by norm_num))
  · intro c hc
    simp only [citationScore]
    rw [if_pos hc]
  · intro a b ha hab hlt1
    have hb : 0 < b := lt_trans ha hab
    rw [citationScore_pos_eq b hb] at hlt1 ⊢
    rw [citationScore_pos_eq a ha]
    have hXb : Real.log ((b : ℝ) + 1) / Real.log 1001 < 1 := by
      rcases min_lt_iff.mp hlt1 with h | h
      · exact absurd h (by norm_num)
      · exact h
    have hmin : min 1.0 (Real.log ((b : ℝ) + 1) / Real.log 1001) =
        Real.log ((b : ℝ) + 1) / Real.log 1001 := by
      apply min_eq_right
      linarith
    rw [hmin]
    calc min 1.0 (Real.log ((a : ℝ) + 1) / Real.log 1001) ≤
        Real.log ((a : ℝ) + 1) / Real.log 1001 := min_le_right _ _
      _ < Real.log ((b : ℝ) + 1) / Real.log 1001 :=
        citation_quotient_strict_mono a b ha hab

/-- Witness for C8's monotone part at the concrete pair (5, 99). -/
theorem C8_citation_ordering_witness :
    (0 : ℤ) < 5 ∧ (5 : ℤ) < 99 ∧
    citationScore (some 5) < citationScore (some 99) := by
  have h := C8_citation_ordering
  have h99lt1 : citationScore (some 99) < 1 := h.2.2.2.2.2.2.1 ▸ h.2.2.2.2.2.1
  exact ⟨by norm_num, by norm_num,
    h.2.2.2.2.2.2.2.2 5 99 (by norm_num) (by norm_num) h99lt1⟩
